import Mathlib

/-!
A shallow embedding of the wallet instance lifecycle manager
(`src/unnamed/part_000`, the `walletManager` module): the registry and
restart engine for the single master wallet instance, the sync wait
coordinator, the dual-location persistence facade, the creation path and
the remote (App Engine) wallet warmup protocol.

External effects (metadata store reads, blob downloads, decryption
outcomes, remote HTTP calls, clock reads, the sync race outcome) are
supplied by explicit environment records; side effects performed by the
code are recorded as an ordered event trace; the process-wide singleton
(`masterWallet`, `masterWalletStartedAt`, `masterWalletLastSaveAt`) is an
explicit state record threaded through each operation.
-/

namespace WalletService

/-- A live wallet handle. `id` identifies the instance (two distinct
constructed instances never share an id); `daemonHost`/`daemonPort` are the
peer the instance is bound to; the heights are what `getSyncStatus`
reports. Heights are `Int` (JS numbers, and the code subtracts them). -/
structure Wallet where
  id : Nat
  daemonHost : String
  daemonPort : Nat
  walletHeight : Int
  networkHeight : Int
deriving DecidableEq

/-- The persisted `wallets/master` metadata record (`WalletInfo`). -/
structure WalletInfo where
  location : String
  backupsDirectory : String
  lastSaveAt : Nat
  lastBackupAt : Nat
deriving DecidableEq

/-- The service configuration fields read by this module. -/
structure ServiceConfig where
  daemonHost : String
  daemonPort : Nat
  waitForSyncTimeout : Nat
  serviceHalted : Bool
deriving DecidableEq

/-- A `ServiceError`: only the error code is relevant to the embedding
(the human-readable message carries no control flow). -/
structure ServiceError where
  errorCode : String
deriving DecidableEq

/-- Derived sync measurement (`getWalletSyncInfo` result shape). -/
structure WalletSyncInfo where
  walletHeight : Int
  networkHeight : Int
  heightDelta : Int
deriving DecidableEq

/-- The pair returned by `getServiceWallet`. -/
structure ServiceWallet where
  wallet : Wallet
  serviceConfig : ServiceConfig
deriving DecidableEq

/-- The process-wide module-level singleton state of `walletManager`:
`masterWallet`, `masterWalletStartedAt`, `masterWalletLastSaveAt`. -/
structure RegistryState where
  masterWallet : Option Wallet
  masterWalletStartedAt : Option Nat
  masterWalletLastSaveAt : Option Nat
deriving DecidableEq

/-- Observable side effects, in program order. -/
inductive Event where
  | fetchBlob
  | constructWallet (id : Nat)
  | rewind (id : Nat) (toHeight : Int)
  | install (id : Nat)
  | stop (id : Nat)
  | removeListeners (id : Nat)
  | clearSingleton
  | registerSyncListener
  | startTimer
  | dropNode (host : String)
  | firestoreCreate
  | firestoreUpdateLastSaveAt (t : Nat)
  | primaryWrite
  | mirrorWrite
  | remoteStatusFetch
  | remoteStart (host : String) (port : Nat)
deriving DecidableEq

/-- Effect of one event on which wallet instance (by id) occupies the
singleton slot: `install` fills it, `clearSingleton` empties it, every
other effect leaves it alone. -/
def applyEvent (occ : Option Nat) : Event → Option Nat
  | Event.install i => some i
  | Event.clearSingleton => none
  | _ => occ

/-- `occupiedThroughout occ evs` holds when the singleton slot is
non-empty at every point of the trace `evs`, started from occupancy
`occ`, including before the first and after the last event. -/
def occupiedThroughout (occ : Option Nat) : List Event → Bool
  | [] => occ.isSome
  | e :: es => occ.isSome && occupiedThroughout (applyEvent occ e) es

/-! ### Sync Wait Coordinator (`waitForWalletSync`, `getWalletSyncInfo`) -/

/-- Outcome of the two-branch race inside `waitForWalletSync`:
whether the one-shot `sync` event resolved the race first, and the
heights `getSyncStatus` reports when the timeout branch re-measures. -/
structure SyncEnv where
  syncEventFirst : Bool
  walletHeightAfter : Int
  networkHeightAfter : Int
deriving DecidableEq

/-- Embedding of `getWalletSyncInfo`: destructure `getSyncStatus` and
compute `heightDelta = networkHeight - walletHeight`. -/
def getWalletSyncInfo (wallet : Wallet) : WalletSyncInfo :=
  { walletHeight := wallet.walletHeight
    networkHeight := wallet.networkHeight
    heightDelta := wallet.networkHeight - wallet.walletHeight }

/-- Embedding of `waitForWalletSync`. Fast path: height delta at entry is
at most 2. Otherwise the `sync`-event promise is raced against the
timeout promise; the timeout branch re-measures the delta, and when not
synced and fewer than 2 blocks were processed during the wait it calls
`ServiceModule.dropCurrentNode` on the current daemon host. The `timeout`
duration itself does not decide the outcome; the race winner comes from
the environment. -/
def waitForWalletSync (wallet : Wallet) (timeout : Nat) (env : SyncEnv) :
    Bool × List Event :=
  let syncInfoStart := getWalletSyncInfo wallet
  if syncInfoStart.heightDelta ≤ 2 then
    (true, [])
  else if env.syncEventFirst then
    (true, [Event.registerSyncListener, Event.startTimer])
  else
    let syncInfoAfterWait : WalletSyncInfo :=
      { walletHeight := env.walletHeightAfter
        networkHeight := env.networkHeightAfter
        heightDelta := env.networkHeightAfter - env.walletHeightAfter }
    let synced : Bool := decide (syncInfoAfterWait.heightDelta ≤ 2)
    let blocksProcessed : Int := syncInfoAfterWait.walletHeight - syncInfoStart.walletHeight
    if !synced && decide (blocksProcessed < 2) then
      (synced, [Event.registerSyncListener, Event.startTimer, Event.dropNode wallet.daemonHost])
    else
      (synced, [Event.registerSyncListener, Event.startTimer])

/-- C4: if the height delta at entry is at most 2, `waitForWalletSync`
returns `true` immediately with no side effects: no sync listener is
registered, no timer is started and no peer-drop occurs. -/
theorem waitForWalletSync_fast_path (wallet : Wallet) (timeout : Nat) (env : SyncEnv)
    (h : wallet.networkHeight - wallet.walletHeight ≤ 2) :
    waitForWalletSync wallet timeout env = (true, []) := by
  simp [waitForWalletSync, getWalletSyncInfo, h]

/-- Witness for C4 at a concrete synced wallet. -/
theorem waitForWalletSync_fast_path_witness :
    ((100 : Int) - 99 ≤ 2) ∧
      waitForWalletSync
        { id := 1, daemonHost := "node-a", daemonPort := 11898,
          walletHeight := 99, networkHeight := 100 } 5000
        { syncEventFirst := false, walletHeightAfter := 99, networkHeightAfter := 100 }
        = (true, []) :=
  ⟨by decide,
   waitForWalletSync_fast_path
     { id := 1, daemonHost := "node-a", daemonPort := 11898,
       walletHeight := 99, networkHeight := 100 } 5000
     { syncEventFirst := false, walletHeightAfter := 99, networkHeightAfter := 100 }
     (by decide)⟩

/-- C5: past the fast path, when the race resolves through the timeout
branch the result is `true` exactly when the re-measured height delta is
at most 2, and the peer-drop side effect fires exactly when the result is
not synced and fewer than 2 blocks were processed during the wait; the
event-driven branch never fires the peer-drop. -/
theorem waitForWalletSync_timeout_policy (wallet : Wallet) (timeout : Nat) (env : SyncEnv)
    (hslow : 2 < wallet.networkHeight - wallet.walletHeight) :
    (env.syncEventFirst = false →
      (waitForWalletSync wallet timeout env).1
          = decide (env.networkHeightAfter - env.walletHeightAfter ≤ 2)
        ∧ ((Event.dropNode wallet.daemonHost ∈ (waitForWalletSync wallet timeout env).2)
            ↔ (¬ (env.networkHeightAfter - env.walletHeightAfter ≤ 2)
                ∧ env.walletHeightAfter - wallet.walletHeight < 2)))
    ∧ (env.syncEventFirst = true →
        Event.dropNode wallet.daemonHost ∉ (waitForWalletSync wallet timeout env).2) := by
  have hs : ¬ (wallet.networkHeight - wallet.walletHeight ≤ 2) := by omega
  constructor
  · intro hev
    unfold waitForWalletSync
    simp only [getWalletSyncInfo, hev, if_neg hs, Bool.false_eq_true, if_false]
    by_cases hsync : env.networkHeightAfter - env.walletHeightAfter ≤ 2
    · simp [hsync]
    · by_cases hblocks : env.walletHeightAfter - wallet.walletHeight < 2
      · simp [hsync, hblocks]
      · simp [hsync, hblocks]
  · intro hev
    unfold waitForWalletSync
    simp only [getWalletSyncInfo, hev, if_neg hs, if_true]
    simp

/-- Witness for C5 at a concrete stalled wallet: delta 90 at entry, no
blocks processed during the wait, timeout branch resolves, result is
`false` and the peer-drop fires on the current host. -/
theorem waitForWalletSync_timeout_policy_witness :
    (waitForWalletSync
        { id := 2, daemonHost := "node-b", daemonPort := 11898,
          walletHeight := 10, networkHeight := 100 } 5000
        { syncEventFirst := false, walletHeightAfter := 10, networkHeightAfter := 100 }).1
      = false
    ∧ Event.dropNode "node-b" ∈
        (waitForWalletSync
          { id := 2, daemonHost := "node-b", daemonPort := 11898,
            walletHeight := 10, networkHeight := 100 } 5000
          { syncEventFirst := false, walletHeightAfter := 10, networkHeightAfter := 100 }).2 := by
  have h := waitForWalletSync_timeout_policy
    { id := 2, daemonHost := "node-b", daemonPort := 11898,
      walletHeight := 10, networkHeight := 100 } 5000
    { syncEventFirst := false, walletHeightAfter := 10, networkHeightAfter := 100 }
    (by decide)
  have h2 := h.1 rfl
  refine ⟨?_, h2.2.mpr (by decide)⟩
  rw [h2.1]
  decide

/-! ### Wallet Instance Registry & Restart Engine (`getMasterWallet`) -/

/-- Environment for one `getMasterWallet` run: the metadata fetch result,
the blob download outcome, the decryption outcome, the identity and
reported heights of the instance a successful open would construct, and
the clock. -/
structure WalletEnv where
  walletInfo : Option WalletInfo
  blobDownload : Option String
  decryptOk : Bool
  freshId : Nat
  freshWalletHeight : Int
  freshNetworkHeight : Int
  now : Nat
deriving DecidableEq

/-- Embedding of `getMasterWalletString`: re-reads the metadata record,
returns `null` when it is absent, otherwise the storage download result
(`null` on a download failure). -/
def getMasterWalletString (env : WalletEnv) : Option String :=
  match env.walletInfo with
  | none => none
  | some _ => env.blobDownload

/-- The wallet instance a successful `openWalletFromEncryptedString`
constructs, bound to the given daemon host and port. -/
def freshWallet (env : WalletEnv) (daemonHost : String) (daemonPort : Nat) : Wallet :=
  { id := env.freshId
    daemonHost := daemonHost
    daemonPort := daemonPort
    walletHeight := env.freshWalletHeight
    networkHeight := env.freshNetworkHeight }

/-- Embedding of `startWalletFromString`: on decryption failure a
`master-wallet-file` error; on success the new instance is started and
the module-level `masterWalletStartedAt` is set to the current time. -/
def startWalletFromString (env : WalletEnv) (daemonHost : String) (daemonPort : Nat)
    (s : RegistryState) :
    (Option Wallet × Option ServiceError) × RegistryState × List Event :=
  if env.decryptOk then
    ((some (freshWallet env daemonHost daemonPort), none),
     { s with masterWalletStartedAt := some env.now },
     [Event.constructWallet env.freshId])
  else
    ((none, some { errorCode := "service/master-wallet-file" }), s, [])

/-- The restart policy of `getMasterWallet` evaluated against an active
instance `mw` and the persisted record `walletInfo`: peer mismatch, the
10-minute maximum instance lifetime (the source guards the age check with
JS truthiness of `masterWalletStartedAt`, hence the `t ≠ 0` conjunct), or
a persisted `lastSaveAt` differing from the recorded baseline. -/
def restartNeeded (cfg : ServiceConfig) (now : Nat) (s : RegistryState)
    (mw : Wallet) (walletInfo : WalletInfo) : Bool :=
  decide (mw.daemonHost ≠ cfg.daemonHost ∨ mw.daemonPort ≠ cfg.daemonPort)
  || (match s.masterWalletStartedAt with
      | some t => decide (t ≠ 0) && decide (now ≥ t + 1000 * 60 * 10)
      | none => false)
  || decide (s.masterWalletLastSaveAt ≠ some walletInfo.lastSaveAt)

/-- Effect of the optional rewind on start: `rewindWallet` rewinds to the
instance's reported height minus the distance, only when the distance is
positive. -/
def rewindEvents (w : Wallet) (rewindDistanceOnStart : Int) : List Event :=
  if 0 < rewindDistanceOnStart then
    [Event.rewind w.id (w.walletHeight - rewindDistanceOnStart)]
  else
    []

/-- Embedding of `getMasterWallet` (the registry and restart engine).
Returns the result pair, the new singleton state and the event trace in
program order: blob fetch, construction, optional rewind, installation of
the new instance into the singleton, then stop and listener detach of the
superseded instance. -/
def getMasterWallet (cfg : ServiceConfig) (forceRestart : Bool) (rewindDistanceOnStart : Int)
    (env : WalletEnv) (s : RegistryState) :
    (Option Wallet × Option ServiceError) × RegistryState × List Event :=
  match env.walletInfo with
  | none => ((none, some { errorCode := "service/master-wallet-info" }), s, [])
  | some walletInfo =>
    match s.masterWallet with
    | some mw =>
      if restartNeeded cfg env.now s mw walletInfo || forceRestart then
        match getMasterWalletString env with
        | none => ((none, some { errorCode := "service/master-wallet-file" }), s, [Event.fetchBlob])
        | some _ =>
          match startWalletFromString env cfg.daemonHost cfg.daemonPort s with
          | ((none, err), s₁, evs₁) => ((none, err), s₁, Event.fetchBlob :: evs₁)
          | ((some newWallet, _), s₁, evs₁) =>
            ((some newWallet, none),
             { s₁ with masterWallet := some newWallet,
                       masterWalletLastSaveAt := some walletInfo.lastSaveAt },
             Event.fetchBlob :: (evs₁ ++ rewindEvents newWallet rewindDistanceOnStart
               ++ [Event.install newWallet.id, Event.stop mw.id, Event.removeListeners mw.id]))
      else
        ((some mw, none), s, [])
    | none =>
      match getMasterWalletString env with
      | none => ((none, some { errorCode := "service/master-wallet-file" }), s, [Event.fetchBlob])
      | some _ =>
        match startWalletFromString env cfg.daemonHost cfg.daemonPort s with
        | ((none, err), s₁, evs₁) => ((none, err), s₁, Event.fetchBlob :: evs₁)
        | ((some wallet, _), s₁, evs₁) =>
          ((some wallet, none),
           { s₁ with masterWallet := some wallet,
                     masterWalletLastSaveAt := some walletInfo.lastSaveAt },
           Event.fetchBlob :: (evs₁ ++ rewindEvents wallet rewindDistanceOnStart
             ++ [Event.install wallet.id]))

/-- Shared run lemma: on any restart path (policy-triggered or forced)
with an active instance, an available blob and a successful decryption,
`getMasterWallet` returns the freshly constructed instance, installs it
with the persisted `lastSaveAt` as the new baseline and the current time
as the start time, and the trace is fetch, construct, optional rewind,
install, stop old, detach old. -/
theorem getMasterWallet_restart_run (cfg : ServiceConfig) (forceRestart : Bool)
    (rdist : Int) (env : WalletEnv) (s : RegistryState) (mw : Wallet)
    (info : WalletInfo) (b : String)
    (hmw : s.masterWallet = some mw)
    (hinfo : env.walletInfo = some info)
    (hcond : (restartNeeded cfg env.now s mw info || forceRestart) = true)
    (hblob : env.blobDownload = some b)
    (hdec : env.decryptOk = true) :
    getMasterWallet cfg forceRestart rdist env s =
      ((some (freshWallet env cfg.daemonHost cfg.daemonPort), none),
       { masterWallet := some (freshWallet env cfg.daemonHost cfg.daemonPort),
         masterWalletStartedAt := some env.now,
         masterWalletLastSaveAt := some info.lastSaveAt },
       [Event.fetchBlob, Event.constructWallet env.freshId]
         ++ rewindEvents (freshWallet env cfg.daemonHost cfg.daemonPort) rdist
         ++ [Event.install env.freshId, Event.stop mw.id, Event.removeListeners mw.id]) := by
  simp [getMasterWallet, hinfo, hmw, hcond, getMasterWalletString, hblob,
    startWalletFromString, hdec, freshWallet]

/-- Helper: whenever `getMasterWallet` returns a wallet, that wallet is
exactly the one held by the resulting singleton state. -/
theorem getMasterWallet_returns_singleton (cfg : ServiceConfig) (forceRestart : Bool)
    (rdist : Int) (env : WalletEnv) (s : RegistryState) (w : Wallet)
    (h : (getMasterWallet cfg forceRestart rdist env s).1.1 = some w) :
    (getMasterWallet cfg forceRestart rdist env s).2.1.masterWallet = some w := by
  unfold getMasterWallet at h ⊢
  cases hinfo : env.walletInfo with
  | none => simp [hinfo] at h
  | some info =>
    cases hmw : s.masterWallet with
    | some mw =>
      simp only [hinfo, hmw] at h ⊢
      by_cases hcond : (restartNeeded cfg env.now s mw info || forceRestart) = true
      · simp only [hcond, if_true] at h ⊢
        cases hstr : getMasterWalletString env with
        | none => simp [hstr] at h
        | some b =>
          simp only [hstr] at h ⊢
          unfold startWalletFromString at h ⊢
          by_cases hdec : env.decryptOk = true
          · simp [hdec] at h ⊢
            exact h
          · simp [Bool.not_eq_true] at hdec
            simp [hdec] at h
      · simp only [Bool.not_eq_true] at hcond
        simp only [hcond, if_false] at h ⊢
        cases h
        exact hmw
    | none =>
      simp only [hinfo, hmw] at h ⊢
      cases hstr : getMasterWalletString env with
      | none => simp [hstr] at h
      | some b =>
        simp only [hstr] at h ⊢
        unfold startWalletFromString at h ⊢
        by_cases hdec : env.decryptOk = true
        · simp [hdec] at h ⊢
          exact h
        · simp [Bool.not_eq_true] at hdec
          simp [hdec] at h

/-- C1: with an active instance whose peer matches the config, less than
10 minutes of age, a persisted `lastSaveAt` equal to the recorded
baseline and `forceRestart` off, `getMasterWallet` returns the existing
instance unchanged: no blob fetch, no construction, no stop, and the
singleton state is untouched. -/
theorem getMasterWallet_identity_fast_path (cfg : ServiceConfig) (rdist : Int)
    (env : WalletEnv) (s : RegistryState) (mw : Wallet) (info : WalletInfo) (t : Nat)
    (hmw : s.masterWallet = some mw)
    (hinfo : env.walletInfo = some info)
    (hhost : mw.daemonHost = cfg.daemonHost)
    (hport : mw.daemonPort = cfg.daemonPort)
    (hstart : s.masterWalletStartedAt = some t)
    (htime : env.now < t + 1000 * 60 * 10)
    (hsave : s.masterWalletLastSaveAt = some info.lastSaveAt) :
    getMasterWallet cfg false rdist env s = ((some mw, none), s, []) := by
  have hage : ¬ (env.now ≥ t + 1000 * 60 * 10) := by omega
  have hrn : restartNeeded cfg env.now s mw info = false := by
    simp [restartNeeded, hstart, hhost, hport, hsave, hage]
  simp [getMasterWallet, hinfo, hmw, hrn]

/-- Witness for C1: concrete matching peer, age 1 second, baseline equal
to the persisted `lastSaveAt`; the call is the identity on the state and
produces no events. -/
theorem getMasterWallet_identity_fast_path_witness :
    getMasterWallet
        { daemonHost := "node-a", daemonPort := 11898, waitForSyncTimeout := 5000,
          serviceHalted := false }
        false 40
        { walletInfo := some { location := "wallets/master.bin", backupsDirectory := "backups",
                               lastSaveAt := 100, lastBackupAt := 0 },
          blobDownload := some "blob", decryptOk := true, freshId := 9,
          freshWalletHeight := 550, freshNetworkHeight := 600, now := 2000 }
        { masterWallet := some { id := 7, daemonHost := "node-a", daemonPort := 11898,
                                 walletHeight := 500, networkHeight := 600 },
          masterWalletStartedAt := some 1000, masterWalletLastSaveAt := some 100 }
      = ((some { id := 7, daemonHost := "node-a", daemonPort := 11898,
                 walletHeight := 500, networkHeight := 600 }, none),
         { masterWallet := some { id := 7, daemonHost := "node-a", daemonPort := 11898,
                                  walletHeight := 500, networkHeight := 600 },
           masterWalletStartedAt := some 1000, masterWalletLastSaveAt := some 100 },
         []) :=
  getMasterWallet_identity_fast_path _ 40 _ _ _ _ 1000
    rfl rfl rfl rfl rfl (by decide) rfl

/-- C2: with an active instance and a persisted `lastSaveAt` differing
from the recorded baseline, `getMasterWallet` treats a restart as
required: it fetches the blob, constructs and installs a new instance,
stops the old one, and records the persisted `lastSaveAt` as the new
baseline. -/
theorem getMasterWallet_stale_baseline_restarts (cfg : ServiceConfig) (forceRestart : Bool)
    (rdist : Int) (env : WalletEnv) (s : RegistryState) (mw : Wallet)
    (info : WalletInfo) (b : String)
    (hmw : s.masterWallet = some mw)
    (hinfo : env.walletInfo = some info)
    (hstale : s.masterWalletLastSaveAt ≠ some info.lastSaveAt)
    (hblob : env.blobDownload = some b)
    (hdec : env.decryptOk = true) :
    getMasterWallet cfg forceRestart rdist env s =
      ((some (freshWallet env cfg.daemonHost cfg.daemonPort), none),
       { masterWallet := some (freshWallet env cfg.daemonHost cfg.daemonPort),
         masterWalletStartedAt := some env.now,
         masterWalletLastSaveAt := some info.lastSaveAt },
       [Event.fetchBlob, Event.constructWallet env.freshId]
         ++ rewindEvents (freshWallet env cfg.daemonHost cfg.daemonPort) rdist
         ++ [Event.install env.freshId, Event.stop mw.id, Event.removeListeners mw.id]) := by
  have hcond : (restartNeeded cfg env.now s mw info || forceRestart) = true := by
    simp [restartNeeded, hstale]
  exact getMasterWallet_restart_run cfg forceRestart rdist env s mw info b
    hmw hinfo hcond hblob hdec

/-- Witness for C2 at the spec scenario: persisted `lastSaveAt` 200,
in-memory baseline 100; a new instance (id 9) is installed, the old one
(id 7) stopped, and the new baseline becomes 200. -/
theorem getMasterWallet_stale_baseline_restarts_witness :
    getMasterWallet
        { daemonHost := "node-a", daemonPort := 11898, waitForSyncTimeout := 5000,
          serviceHalted := false }
        false 40
        { walletInfo := some { location := "wallets/master.bin", backupsDirectory := "backups",
                               lastSaveAt := 200, lastBackupAt := 0 },
          blobDownload := some "blob", decryptOk := true, freshId := 9,
          freshWalletHeight := 550, freshNetworkHeight := 600, now := 2000 }
        { masterWallet := some { id := 7, daemonHost := "node-a", daemonPort := 11898,
                                 walletHeight := 500, networkHeight := 600 },
          masterWalletStartedAt := some 1000, masterWalletLastSaveAt := some 100 }
      = ((some { id := 9, daemonHost := "node-a", daemonPort := 11898,
                 walletHeight := 550, networkHeight := 600 }, none),
         { masterWallet := some { id := 9, daemonHost := "node-a", daemonPort := 11898,
                                  walletHeight := 550, networkHeight := 600 },
           masterWalletStartedAt := some 2000, masterWalletLastSaveAt := some 200 },
         [Event.fetchBlob, Event.constructWallet 9, Event.rewind 9 510,
          Event.install 9, Event.stop 7, Event.removeListeners 7]) := by
  have h := getMasterWallet_stale_baseline_restarts
    { daemonHost := "node-a", daemonPort := 11898, waitForSyncTimeout := 5000,
      serviceHalted := false }
    false 40
    { walletInfo := some { location := "wallets/master.bin", backupsDirectory := "backups",
                           lastSaveAt := 200, lastBackupAt := 0 },
      blobDownload := some "blob", decryptOk := true, freshId := 9,
      freshWalletHeight := 550, freshNetworkHeight := 600, now := 2000 }
    { masterWallet := some { id := 7, daemonHost := "node-a", daemonPort := 11898,
                             walletHeight := 500, networkHeight := 600 },
      masterWalletStartedAt := some 1000, masterWalletLastSaveAt := some 100 }
    { id := 7, daemonHost := "node-a", daemonPort := 11898,
      walletHeight := 500, networkHeight := 600 }
    { location := "wallets/master.bin", backupsDirectory := "backups",
      lastSaveAt := 200, lastBackupAt := 0 }
    "blob" rfl rfl (by decide) rfl rfl
  simpa [freshWallet, rewindEvents] using h

/-- C3: on every restart path with an active instance (whatever the
trigger, a differing peer included), the trace installs the replacement
before stopping and detaching the superseded instance, the superseded
instance is stopped exactly once, and the singleton slot is occupied at
every point of the swap. -/
theorem getMasterWallet_swap_ordering (cfg : ServiceConfig) (forceRestart : Bool)
    (rdist : Int) (env : WalletEnv) (s : RegistryState) (mw : Wallet)
    (info : WalletInfo) (b : String)
    (hmw : s.masterWallet = some mw)
    (hinfo : env.walletInfo = some info)
    (hcond : (restartNeeded cfg env.now s mw info || forceRestart) = true)
    (hblob : env.blobDownload = some b)
    (hdec : env.decryptOk = true) :
    (getMasterWallet cfg forceRestart rdist env s).2.2
        = [Event.fetchBlob, Event.constructWallet env.freshId]
          ++ rewindEvents (freshWallet env cfg.daemonHost cfg.daemonPort) rdist
          ++ [Event.install env.freshId, Event.stop mw.id, Event.removeListeners mw.id]
    ∧ ((getMasterWallet cfg forceRestart rdist env s).2.2.count (Event.stop mw.id) = 1)
    ∧ occupiedThroughout (some mw.id) (getMasterWallet cfg forceRestart rdist env s).2.2
        = true := by
  have hrun := getMasterWallet_restart_run cfg forceRestart rdist env s mw info b
    hmw hinfo hcond hblob hdec
  rw [hrun]
  refine ⟨rfl, ?_, ?_⟩
  · by_cases hr : (0 : Int) < rdist
    · simp [rewindEvents, hr, List.count_cons, List.count_append]
    · simp [rewindEvents, hr, List.count_cons, List.count_append]
  · by_cases hr : (0 : Int) < rdist
    · simp [rewindEvents, hr, occupiedThroughout, applyEvent]
    · simp [rewindEvents, hr, occupiedThroughout, applyEvent]

/-- Witness for C3: a forced restart at a concrete state; the trace is
fetch, construct, rewind, install, stop, detach, the old instance (id 7)
is stopped once, and the singleton is occupied throughout. -/
theorem getMasterWallet_swap_ordering_witness :
    ((getMasterWallet
        { daemonHost := "node-a", daemonPort := 11898, waitForSyncTimeout := 5000,
          serviceHalted := false }
        true 40
        { walletInfo := some { location := "wallets/master.bin", backupsDirectory := "backups",
                               lastSaveAt := 100, lastBackupAt := 0 },
          blobDownload := some "blob", decryptOk := true, freshId := 9,
          freshWalletHeight := 550, freshNetworkHeight := 600, now := 2000 }
        { masterWallet := some { id := 7, daemonHost := "node-a", daemonPort := 11898,
                                 walletHeight := 500, networkHeight := 600 },
          masterWalletStartedAt := some 1000, masterWalletLastSaveAt := some 100 }).2.2.count
        (Event.stop 7) = 1)
    ∧ occupiedThroughout (some 7)
        (getMasterWallet
          { daemonHost := "node-a", daemonPort := 11898, waitForSyncTimeout := 5000,
            serviceHalted := false }
          true 40
          { walletInfo := some { location := "wallets/master.bin", backupsDirectory := "backups",
                                 lastSaveAt := 100, lastBackupAt := 0 },
            blobDownload := some "blob", decryptOk := true, freshId := 9,
            freshWalletHeight := 550, freshNetworkHeight := 600, now := 2000 }
          { masterWallet := some { id := 7, daemonHost := "node-a", daemonPort := 11898,
                                   walletHeight := 500, networkHeight := 600 },
            masterWalletStartedAt := some 1000, masterWalletLastSaveAt := some 100 }).2.2
        = true := by
  have h := getMasterWallet_swap_ordering
    { daemonHost := "node-a", daemonPort := 11898, waitForSyncTimeout := 5000,
      serviceHalted := false }
    true 40
    { walletInfo := some { location := "wallets/master.bin", backupsDirectory := "backups",
                           lastSaveAt := 100, lastBackupAt := 0 },
      blobDownload := some "blob", decryptOk := true, freshId := 9,
      freshWalletHeight := 550, freshNetworkHeight := 600, now := 2000 }
    { masterWallet := some { id := 7, daemonHost := "node-a", daemonPort := 11898,
                             walletHeight := 500, networkHeight := 600 },
      masterWalletStartedAt := some 1000, masterWalletLastSaveAt := some 100 }
    { id := 7, daemonHost := "node-a", daemonPort := 11898,
      walletHeight := 500, networkHeight := 600 }
    { location := "wallets/master.bin", backupsDirectory := "backups",
      lastSaveAt := 100, lastBackupAt := 0 }
    "blob" rfl rfl (by simp) rfl rfl
  exact ⟨h.2.1, h.2.2⟩

/-! ### Persistence Facade (`saveMasterWallet` and its two writes) -/

/-- Environment for one `saveMasterWallet` run: the metadata fetch
result, the outcomes of the primary (Firebase bucket) and mirror (App
Engine project) writes, the timestamp captured before the writes and the
clock reading used for the metadata update. -/
structure SaveEnv where
  walletInfo : Option WalletInfo
  primaryWriteOk : Bool
  mirrorWriteOk : Bool
  now : Nat
  now2 : Nat
deriving DecidableEq

/-- Embedding of `saveWalletFirebase`: the primary blob write, with every
exception caught and turned into `false`. -/
def saveWalletFirebase (env : SaveEnv) : Bool × List Event :=
  (env.primaryWriteOk, [Event.primaryWrite])

/-- Embedding of `saveWalletAppEngine`: the mirror write to the remote
delegate's storage project, with every exception caught and turned into
`false`. -/
def saveWalletAppEngine (env : SaveEnv) : Bool × List Event :=
  (env.mirrorWriteOk, [Event.mirrorWrite])

/-- Embedding of `saveMasterWallet`: missing metadata is the only error;
otherwise both writes are joined with `Promise.all` (both always
attempted), the metadata `lastSaveAt` update is performed exactly when
the primary write reported success, and the timestamp captured before
the writes is returned unconditionally. -/
def saveMasterWallet (env : SaveEnv) : (Option Nat × Option ServiceError) × List Event :=
  match env.walletInfo with
  | none => ((none, some { errorCode := "service/master-wallet-info" }), [])
  | some _ =>
    let primary := saveWalletFirebase env
    let mirror := saveWalletAppEngine env
    let updateEvs := if primary.1 then [Event.firestoreUpdateLastSaveAt env.now2] else []
    ((some env.now, none), primary.2 ++ mirror.2 ++ updateEvs)

/-- C6: with the metadata record present, both the primary and the
mirror write are attempted (no short-circuiting), the save result is a
success independent of the mirror outcome, and the `lastSaveAt` metadata
update happens exactly when the primary write succeeded. -/
theorem saveMasterWallet_dual_write (env : SaveEnv) (info : WalletInfo)
    (h : env.walletInfo = some info) :
    Event.primaryWrite ∈ (saveMasterWallet env).2
    ∧ Event.mirrorWrite ∈ (saveMasterWallet env).2
    ∧ (saveMasterWallet env).1 = (some env.now, none)
    ∧ (Event.firestoreUpdateLastSaveAt env.now2 ∈ (saveMasterWallet env).2
        ↔ env.primaryWriteOk = true) := by
  by_cases hp : env.primaryWriteOk = true
  · simp [saveMasterWallet, h, saveWalletFirebase, saveWalletAppEngine, hp]
  · simp only [Bool.not_eq_true] at hp
    simp [saveMasterWallet, h, saveWalletFirebase, saveWalletAppEngine, hp]

/-- Witness for C6: a failing mirror write with a succeeding primary
write still returns success and still updates the metadata record. -/
theorem saveMasterWallet_dual_write_witness :
    Event.primaryWrite ∈ (saveMasterWallet
        { walletInfo := some { location := "wallets/master.bin", backupsDirectory := "backups",
                               lastSaveAt := 100, lastBackupAt := 0 },
          primaryWriteOk := true, mirrorWriteOk := false, now := 300, now2 := 301 }).2
    ∧ Event.mirrorWrite ∈ (saveMasterWallet
        { walletInfo := some { location := "wallets/master.bin", backupsDirectory := "backups",
                               lastSaveAt := 100, lastBackupAt := 0 },
          primaryWriteOk := true, mirrorWriteOk := false, now := 300, now2 := 301 }).2
    ∧ (saveMasterWallet
        { walletInfo := some { location := "wallets/master.bin", backupsDirectory := "backups",
                               lastSaveAt := 100, lastBackupAt := 0 },
          primaryWriteOk := true, mirrorWriteOk := false, now := 300, now2 := 301 }).1
        = (some 300, none)
    ∧ (Event.firestoreUpdateLastSaveAt 301 ∈ (saveMasterWallet
        { walletInfo := some { location := "wallets/master.bin", backupsDirectory := "backups",
                               lastSaveAt := 100, lastBackupAt := 0 },
          primaryWriteOk := true, mirrorWriteOk := false, now := 300, now2 := 301 }).2
        ↔ true = true) :=
  saveMasterWallet_dual_write
    { walletInfo := some { location := "wallets/master.bin", backupsDirectory := "backups",
                           lastSaveAt := 100, lastBackupAt := 0 },
      primaryWriteOk := true, mirrorWriteOk := false, now := 300, now2 := 301 }
    { location := "wallets/master.bin", backupsDirectory := "backups",
      lastSaveAt := 100, lastBackupAt := 0 }
    rfl

/-- C10: `saveMasterWallet` returns an error only when the metadata
record is absent; with the record present it returns a success timestamp
whatever the two write outcomes (both may fail), and a write failure is
visible only through the metadata `lastSaveAt` update not happening. -/
theorem saveMasterWallet_error_only_on_missing_info (env : SaveEnv) :
    (env.walletInfo = none →
       saveMasterWallet env
         = ((none, some { errorCode := "service/master-wallet-info" }), []))
    ∧ (∀ info, env.walletInfo = some info →
        (saveMasterWallet env).1 = (some env.now, none)
        ∧ (Event.firestoreUpdateLastSaveAt env.now2 ∈ (saveMasterWallet env).2
            ↔ env.primaryWriteOk = true)) := by
  constructor
  · intro h
    simp [saveMasterWallet, h]
  · intro info h
    by_cases hp : env.primaryWriteOk = true
    · simp [saveMasterWallet, h, saveWalletFirebase, saveWalletAppEngine, hp]
    · simp only [Bool.not_eq_true] at hp
      simp [saveMasterWallet, h, saveWalletFirebase, saveWalletAppEngine, hp]

/-- Witness for C10: with the record present and both writes failing the
result is still a success timestamp, and the metadata update does not
happen; with the record absent the result is the
`master-wallet-info` error. -/
theorem saveMasterWallet_error_only_on_missing_info_witness :
    ((saveMasterWallet
        { walletInfo := some { location := "wallets/master.bin", backupsDirectory := "backups",
                               lastSaveAt := 100, lastBackupAt := 0 },
          primaryWriteOk := false, mirrorWriteOk := false, now := 300, now2 := 301 }).1
        = (some 300, none)
      ∧ (Event.firestoreUpdateLastSaveAt 301 ∈ (saveMasterWallet
          { walletInfo := some { location := "wallets/master.bin", backupsDirectory := "backups",
                                 lastSaveAt := 100, lastBackupAt := 0 },
            primaryWriteOk := false, mirrorWriteOk := false, now := 300, now2 := 301 }).2
          ↔ false = true))
    ∧ saveMasterWallet
        { walletInfo := none, primaryWriteOk := false, mirrorWriteOk := false,
          now := 300, now2 := 301 }
        = ((none, some { errorCode := "service/master-wallet-info" }), []) :=
  ⟨(saveMasterWallet_error_only_on_missing_info
      { walletInfo := some { location := "wallets/master.bin", backupsDirectory := "backups",
                             lastSaveAt := 100, lastBackupAt := 0 },
        primaryWriteOk := false, mirrorWriteOk := false, now := 300, now2 := 301 }).2
      { location := "wallets/master.bin", backupsDirectory := "backups",
        lastSaveAt := 100, lastBackupAt := 0 }
      rfl,
   (saveMasterWallet_error_only_on_missing_info
      { walletInfo := none, primaryWriteOk := false, mirrorWriteOk := false,
        now := 300, now2 := 301 }).1
      rfl⟩

/-! ### Creation path (`createMasterWallet`) -/

/-- Opaque location pointer from the constants module (its value decides
nothing in the claims). -/
def defaultWalletLocation : String := "defaultWalletLocation"

/-- Opaque backups-directory pointer from the constants module (its
value decides nothing in the claims). -/
def defaultWalletBackupsDirectory : String := "defaultWalletBackupsDirectory"

/-- Environment for one `createMasterWallet` run: the current
`wallets/master` record (the atomic `create` fails exactly when one
exists), the clock, the outcome of the local wallet construction, the
identity of the constructed instance, the mnemonic seed the engine
reports, and the persistence outcomes passed on to `saveMasterWallet`. -/
structure CreateEnv where
  store : Option WalletInfo
  now : Nat
  createWalletOk : Bool
  freshId : Nat
  seed : Option String
  primaryWriteOk : Bool
  mirrorWriteOk : Bool
  saveNow : Nat
  saveNow2 : Nat
deriving DecidableEq

/-- Embedding of `createMasterWallet`: build the fresh `WalletInfo`
record, create it atomically (failing with `master-wallet-info` when one
already exists, leaving the existing record untouched), construct and
start a fresh wallet bound to the configured peer, persist it through
`saveMasterWallet` (read-after-write: the save sees the just-created
record), and return the mnemonic seed. A fresh wallet reports height 0
(it has processed nothing; the heights decide nothing in the claims). -/
def createMasterWallet (cfg : ServiceConfig) (env : CreateEnv) (s : RegistryState) :
    (Option String × Option ServiceError) × Option WalletInfo × RegistryState × List Event :=
  let walletDoc : WalletInfo :=
    { location := defaultWalletLocation, backupsDirectory := defaultWalletBackupsDirectory,
      lastSaveAt := env.now, lastBackupAt := 0 }
  match env.store with
  | some existing =>
    ((none, some { errorCode := "service/master-wallet-info" }), some existing, s, [])
  | none =>
    if env.createWalletOk then
      let w : Wallet := { id := env.freshId, daemonHost := cfg.daemonHost,
                          daemonPort := cfg.daemonPort, walletHeight := 0, networkHeight := 0 }
      let s₁ : RegistryState := { s with masterWallet := some w }
      let saveEnv : SaveEnv :=
        { walletInfo := some walletDoc, primaryWriteOk := env.primaryWriteOk,
          mirrorWriteOk := env.mirrorWriteOk, now := env.saveNow, now2 := env.saveNow2 }
      let store₂ : Option WalletInfo :=
        if env.primaryWriteOk then some { walletDoc with lastSaveAt := env.saveNow2 }
        else some walletDoc
      match saveMasterWallet saveEnv with
      | ((some _, _), saveEvs) =>
        (match env.seed with
         | some seed => ((some seed, none), store₂, s₁, Event.firestoreCreate :: saveEvs)
         | none =>
           ((none, some { errorCode := "service/master-wallet-info" }), store₂, s₁,
            Event.firestoreCreate :: saveEvs))
      | ((none, saveErr), saveEvs) =>
        ((none, saveErr), some walletDoc, s₁, Event.firestoreCreate :: saveEvs)
    else
      ((none, some { errorCode := "service/unknown-error" }), some walletDoc, s,
       [Event.firestoreCreate])

/-- C7: when the master wallet metadata record already exists,
`createMasterWallet` fails with the `master-wallet-info` error, returns
no seed, and leaves the existing record (and the singleton state)
unmutated, with no side effects; on the success path it returns the
wallet's mnemonic seed. -/
theorem createMasterWallet_idempotency_guard (cfg : ServiceConfig) (env : CreateEnv)
    (s : RegistryState) :
    (∀ info, env.store = some info →
       createMasterWallet cfg env s
         = ((none, some { errorCode := "service/master-wallet-info" }), some info, s, []))
    ∧ (env.store = none → env.createWalletOk = true →
        ∀ seed, env.seed = some seed →
          (createMasterWallet cfg env s).1 = (some seed, none)) := by
  constructor
  · intro info h
    simp [createMasterWallet, h]
  · intro h hok seed hseed
    simp [createMasterWallet, h, hok, hseed, saveMasterWallet, saveWalletFirebase,
      saveWalletAppEngine]

/-- Witness for C7: creation against an existing record fails with
`master-wallet-info` and changes nothing; creation against an absent
record returns the mnemonic seed. -/
theorem createMasterWallet_idempotency_guard_witness :
    createMasterWallet
        { daemonHost := "node-a", daemonPort := 11898, waitForSyncTimeout := 5000,
          serviceHalted := false }
        { store := some { location := "wallets/master.bin", backupsDirectory := "backups",
                          lastSaveAt := 100, lastBackupAt := 0 },
          now := 400, createWalletOk := true, freshId := 3, seed := some "seed words",
          primaryWriteOk := true, mirrorWriteOk := true, saveNow := 401, saveNow2 := 402 }
        { masterWallet := none, masterWalletStartedAt := none, masterWalletLastSaveAt := none }
      = ((none, some { errorCode := "service/master-wallet-info" }),
         some { location := "wallets/master.bin", backupsDirectory := "backups",
                lastSaveAt := 100, lastBackupAt := 0 },
         { masterWallet := none, masterWalletStartedAt := none,
           masterWalletLastSaveAt := none },
         [])
    ∧ (createMasterWallet
        { daemonHost := "node-a", daemonPort := 11898, waitForSyncTimeout := 5000,
          serviceHalted := false }
        { store := none, now := 400, createWalletOk := true, freshId := 3,
          seed := some "seed words", primaryWriteOk := true, mirrorWriteOk := true,
          saveNow := 401, saveNow2 := 402 }
        { masterWallet := none, masterWalletStartedAt := none,
          masterWalletLastSaveAt := none }).1
        = (some "seed words", none) :=
  ⟨(createMasterWallet_idempotency_guard
      { daemonHost := "node-a", daemonPort := 11898, waitForSyncTimeout := 5000,
        serviceHalted := false }
      { store := some { location := "wallets/master.bin", backupsDirectory := "backups",
                        lastSaveAt := 100, lastBackupAt := 0 },
        now := 400, createWalletOk := true, freshId := 3, seed := some "seed words",
        primaryWriteOk := true, mirrorWriteOk := true, saveNow := 401, saveNow2 := 402 }
      { masterWallet := none, masterWalletStartedAt := none,
        masterWalletLastSaveAt := none }).1
      { location := "wallets/master.bin", backupsDirectory := "backups",
        lastSaveAt := 100, lastBackupAt := 0 }
      rfl,
   (createMasterWallet_idempotency_guard
      { daemonHost := "node-a", daemonPort := 11898, waitForSyncTimeout := 5000,
        serviceHalted := false }
      { store := none, now := 400, createWalletOk := true, freshId := 3,
        seed := some "seed words", primaryWriteOk := true, mirrorWriteOk := true,
        saveNow := 401, saveNow2 := 402 }
      { masterWallet := none, masterWalletStartedAt := none,
        masterWalletLastSaveAt := none }).2
      rfl rfl "seed words" rfl⟩

/-! ### Service wallet acquisition (`getServiceWallet`) -/

/-- Environment for `getServiceWallet`: the `getServiceConfig` result and
the error it reports when the config is unavailable. -/
structure ServiceEnv where
  serviceConfig : Option ServiceConfig
  configError : ServiceError
deriving DecidableEq

/-- Embedding of `getServiceWallet`: resolve the config, honour the halt
flag, acquire the master wallet through the registry (with default
arguments: no forced restart, rewind distance 40), then optionally wait
for sync; a failed sync wait stops the current singleton instance,
detaches its listeners, clears the singleton and returns the
`master-wallet-sync-failed` error. -/
def getServiceWallet (waitForSync : Bool) (env : ServiceEnv) (wenv : WalletEnv)
    (senv : SyncEnv) (s : RegistryState) :
    (Option ServiceWallet × Option ServiceError) × RegistryState × List Event :=
  match env.serviceConfig with
  | none => ((none, some env.configError), s, [])
  | some serviceConfig =>
    if serviceConfig.serviceHalted then
      ((none, some { errorCode := "service/service-halted" }), s, [])
    else
      match getMasterWallet serviceConfig false 40 wenv s with
      | ((none, openError), s₁, evs₁) => ((none, openError), s₁, evs₁)
      | ((some wallet, _), s₁, evs₁) =>
        let serviceWallet : ServiceWallet :=
          { wallet := wallet, serviceConfig := serviceConfig }
        if !waitForSync then
          ((some serviceWallet, none), s₁, evs₁)
        else
          match waitForWalletSync wallet serviceConfig.waitForSyncTimeout senv with
          | (true, evs₂) => ((some serviceWallet, none), s₁, evs₁ ++ evs₂)
          | (false, evs₂) =>
            match s₁.masterWallet with
            | some mw =>
              ((none, some { errorCode := "service/master-wallet-sync-failed" }),
               { s₁ with masterWallet := none },
               evs₁ ++ evs₂ ++ [Event.stop mw.id, Event.removeListeners mw.id,
                                Event.clearSingleton])
            | none =>
              ((none, some { errorCode := "service/master-wallet-sync-failed" }), s₁,
               evs₁ ++ evs₂)

/-- C8: when the sync wait fails after a successful acquisition,
`getServiceWallet` stops the singleton instance, detaches its listeners
and clears the singleton to `undefined` before returning the
`master-wallet-sync-failed` error with no handle, so the next
acquisition starts from the no-instance path. -/
theorem getServiceWallet_sync_failure_discards (env : ServiceEnv) (wenv : WalletEnv)
    (senv : SyncEnv) (s : RegistryState) (cfg : ServiceConfig) (w : Wallet)
    (s₁ : RegistryState) (evs₁ evs₂ : List Event)
    (hcfg : env.serviceConfig = some cfg)
    (hhalt : cfg.serviceHalted = false)
    (hgm : getMasterWallet cfg false 40 wenv s = ((some w, none), s₁, evs₁))
    (hsync : waitForWalletSync w cfg.waitForSyncTimeout senv = (false, evs₂)) :
    getServiceWallet true env wenv senv s =
      ((none, some { errorCode := "service/master-wallet-sync-failed" }),
       { s₁ with masterWallet := none },
       evs₁ ++ evs₂ ++ [Event.stop w.id, Event.removeListeners w.id,
                        Event.clearSingleton]) := by
  have hs₁ : s₁.masterWallet = some w := by
    have h := getMasterWallet_returns_singleton cfg false 40 wenv s w (by rw [hgm])
    rwa [hgm] at h
  simp [getServiceWallet, hcfg, hhalt, hgm, hsync, hs₁]

/-- Witness for C8: a fast-path acquisition of an unsynced instance
(delta 90) whose sync wait times out; the instance (id 7) is stopped,
detached and the singleton cleared, and the call returns the
`master-wallet-sync-failed` error. -/
theorem getServiceWallet_sync_failure_discards_witness :
    getServiceWallet true
        { serviceConfig := some { daemonHost := "node-a", daemonPort := 11898,
                                  waitForSyncTimeout := 5000, serviceHalted := false },
          configError := { errorCode := "service/unknown-error" } }
        { walletInfo := some { location := "wallets/master.bin", backupsDirectory := "backups",
                               lastSaveAt := 100, lastBackupAt := 0 },
          blobDownload := some "blob", decryptOk := true, freshId := 9,
          freshWalletHeight := 550, freshNetworkHeight := 600, now := 2000 }
        { syncEventFirst := false, walletHeightAfter := 10, networkHeightAfter := 100 }
        { masterWallet := some { id := 7, daemonHost := "node-a", daemonPort := 11898,
                                 walletHeight := 10, networkHeight := 100 },
          masterWalletStartedAt := some 1000, masterWalletLastSaveAt := some 100 }
      = ((none, some { errorCode := "service/master-wallet-sync-failed" }),
         { masterWallet := none, masterWalletStartedAt := some 1000,
           masterWalletLastSaveAt := some 100 },
         [Event.registerSyncListener, Event.startTimer, Event.dropNode "node-a",
          Event.stop 7, Event.removeListeners 7, Event.clearSingleton]) := by
  have h := getServiceWallet_sync_failure_discards
    { serviceConfig := some { daemonHost := "node-a", daemonPort := 11898,
                              waitForSyncTimeout := 5000, serviceHalted := false },
      configError := { errorCode := "service/unknown-error" } }
    { walletInfo := some { location := "wallets/master.bin", backupsDirectory := "backups",
                           lastSaveAt := 100, lastBackupAt := 0 },
      blobDownload := some "blob", decryptOk := true, freshId := 9,
      freshWalletHeight := 550, freshNetworkHeight := 600, now := 2000 }
    { syncEventFirst := false, walletHeightAfter := 10, networkHeightAfter := 100 }
    { masterWallet := some { id := 7, daemonHost := "node-a", daemonPort := 11898,
                             walletHeight := 10, networkHeight := 100 },
      masterWalletStartedAt := some 1000, masterWalletLastSaveAt := some 100 }
    { daemonHost := "node-a", daemonPort := 11898, waitForSyncTimeout := 5000,
      serviceHalted := false }
    { id := 7, daemonHost := "node-a", daemonPort := 11898,
      walletHeight := 10, networkHeight := 100 }
    { masterWallet := some { id := 7, daemonHost := "node-a", daemonPort := 11898,
                             walletHeight := 10, networkHeight := 100 },
      masterWalletStartedAt := some 1000, masterWalletLastSaveAt := some 100 }
    [] [Event.registerSyncListener, Event.startTimer, Event.dropNode "node-a"]
    rfl rfl (by decide) (by decide)
  simpa using h

/-! ### Remote Wallet Proxy (`warmupAppEngineWallet`, `startAppEngineWallet`) -/

/-- Modelled from the spec: the `WalletStatus` type of the remote
delegate lives in `shared/types`, which is not among the source files;
the spec's data model gives `{started, daemonHost, uptime}`. The remote
wallet is additionally bound to a port (the start request carries
`daemonHost` and `daemonPort`), carried here so that the peer the remote
side is bound to is expressible; the code under `src/` reads only
`started`, `daemonHost` and `uptime`. -/
structure WalletStatus where
  started : Bool
  daemonHost : String
  daemonPort : Nat
  uptime : Option Nat
deriving DecidableEq

/-- Environment for the warmup protocol: the `GET /status` result
(`none` when the fetch fails) and the `POST /start` response (`none`
when the call throws). -/
structure WarmupEnv where
  status : Option WalletStatus
  startResponse : Option WalletStatus
deriving DecidableEq

/-- Embedding of `startAppEngineWallet`: always posts the start request
carrying the configured host and port; a thrown call reports `false`,
otherwise the response's `started` flag is reported. -/
def startAppEngineWallet (cfg : ServiceConfig) (env : WarmupEnv) : Bool × List Event :=
  ((match env.startResponse with
    | none => false
    | some walletStatus => walletStatus.started),
   [Event.remoteStart cfg.daemonHost cfg.daemonPort])

/-- The remote wallet's maximum uptime before a forced restart:
4 hours in milliseconds. -/
def maxCloudWalletUptime : Nat := 1000 * 60 * 60 * 4

/-- The restart policy of `warmupAppEngineWallet` over a fetched status:
not started, or bound to a different host, or an uptime that is truthy
and above the 4-hour maximum. The port is never read. -/
def remoteRestartRequired (cfg : ServiceConfig) (status : WalletStatus) : Bool :=
  if !status.started then
    true
  else
    decide (status.daemonHost ≠ cfg.daemonHost)
    || (match status.uptime with
        | some u => decide (u ≠ 0) && decide (u > maxCloudWalletUptime)
        | none => false)

/-- Embedding of `warmupAppEngineWallet`: a failed status fetch reports
`false` with no start call; otherwise a start call is issued exactly
when the restart policy fires, else the wallet is reported ready. -/
def warmupAppEngineWallet (cfg : ServiceConfig) (env : WarmupEnv) : Bool × List Event :=
  match env.status with
  | none => (false, [Event.remoteStatusFetch])
  | some status =>
    if !(remoteRestartRequired cfg status) then
      (true, [Event.remoteStatusFetch])
    else
      ((startAppEngineWallet cfg env).1,
       Event.remoteStatusFetch :: (startAppEngineWallet cfg env).2)

/-- The boolean restart policy coincides with its natural-language
reading: unstarted, a differing host, or an uptime above the 4-hour
maximum (the truthiness guard on `uptime` is redundant above a positive
bound). -/
theorem remoteRestartRequired_iff (cfg : ServiceConfig) (status : WalletStatus) :
    remoteRestartRequired cfg status = true ↔
      (status.started = false ∨ status.daemonHost ≠ cfg.daemonHost
       ∨ ∃ u, status.uptime = some u ∧ maxCloudWalletUptime < u) := by
  unfold remoteRestartRequired
  cases hst : status.started with
  | false => simp
  | true =>
    cases hu : status.uptime with
    | none => simp [hu]
    | some u =>
      simp only [Bool.not_true, Bool.false_eq_true, if_false, hu, Bool.or_eq_true,
        Bool.and_eq_true, decide_eq_true_eq, Bool.true_eq_false, false_or, gt_iff_lt]
      constructor
      · rintro (h | ⟨h0, hmax⟩)
        · exact Or.inl h
        · exact Or.inr ⟨u, rfl, hmax⟩
      · rintro (h | ⟨v, hv, hmax⟩)
        · exact Or.inl h
        · cases hv
          refine Or.inr ⟨?_, hmax⟩
          have : 0 < maxCloudWalletUptime := by decide
          omega

/-- C9 (corrected): a failed status fetch makes `warmupAppEngineWallet`
return `false` without a start call; with a fetched status, the start
call (carrying the configured host and port) is issued exactly when the
remote wallet is unstarted, bound to a different HOST than the config
(the port is not compared), or has uptime above the 4-hour maximum;
when none of these hold it is a no-op reporting ready. -/
theorem warmupAppEngineWallet_policy (cfg : ServiceConfig) (env : WarmupEnv) :
    (env.status = none →
       warmupAppEngineWallet cfg env = (false, [Event.remoteStatusFetch]))
    ∧ (∀ status, env.status = some status →
        ((Event.remoteStart cfg.daemonHost cfg.daemonPort ∈ (warmupAppEngineWallet cfg env).2
            ↔ (status.started = false ∨ status.daemonHost ≠ cfg.daemonHost
               ∨ ∃ u, status.uptime = some u ∧ maxCloudWalletUptime < u))
         ∧ (¬ (status.started = false ∨ status.daemonHost ≠ cfg.daemonHost
               ∨ ∃ u, status.uptime = some u ∧ maxCloudWalletUptime < u) →
              warmupAppEngineWallet cfg env = (true, [Event.remoteStatusFetch])))) := by
  constructor
  · intro h
    simp [warmupAppEngineWallet, h]
  · intro status h
    rw [← remoteRestartRequired_iff cfg status]
    by_cases hr : remoteRestartRequired cfg status = true
    · constructor
      · simp [warmupAppEngineWallet, h, hr, startAppEngineWallet]
      · intro hnot
        exact absurd hr hnot
    · simp only [Bool.not_eq_true] at hr
      constructor
      · simp [warmupAppEngineWallet, h, hr, startAppEngineWallet]
      · intro _
        simp [warmupAppEngineWallet, h, hr]

/-- Witness for the corrected C9: an unstarted remote wallet triggers
the start call with the configured peer and the warmup reports the start
response's `started` flag. -/
theorem warmupAppEngineWallet_policy_witness :
    Event.remoteStart "node-a" 11898 ∈
      (warmupAppEngineWallet
        { daemonHost := "node-a", daemonPort := 11898, waitForSyncTimeout := 5000,
          serviceHalted := false }
        { status := some { started := false, daemonHost := "node-a", daemonPort := 11898,
                           uptime := none },
          startResponse := some { started := true, daemonHost := "node-a",
                                  daemonPort := 11898, uptime := some 1 } }).2 :=
  ((warmupAppEngineWallet_policy
      { daemonHost := "node-a", daemonPort := 11898, waitForSyncTimeout := 5000,
        serviceHalted := false }
      { status := some { started := false, daemonHost := "node-a", daemonPort := 11898,
                         uptime := none },
        startResponse := some { started := true, daemonHost := "node-a",
                                daemonPort := 11898, uptime := some 1 } }).2
    { started := false, daemonHost := "node-a", daemonPort := 11898, uptime := none }
    rfl).1.mpr (Or.inl rfl)

/-- Counterexample to C9 as stated: a started remote wallet whose host
matches the config but whose bound port differs (11898 configured,
12898 bound) and whose uptime is below the maximum; the claim's
condition "bound to a different peer (host and port)" holds, yet no
start call is issued and the warmup reports ready — the code never
compares the port. -/
theorem warmupAppEngineWallet_port_counterexample :
    warmupAppEngineWallet
        { daemonHost := "node-a", daemonPort := 11898, waitForSyncTimeout := 5000,
          serviceHalted := false }
        { status := some { started := true, daemonHost := "node-a", daemonPort := 12898,
                           uptime := some 1000 },
          startResponse := some { started := true, daemonHost := "node-a",
                                  daemonPort := 11898, uptime := some 0 } }
      = (true, [Event.remoteStatusFetch])
    ∧ (12898 : Nat) ≠ 11898 := by
  constructor
  · decide
  · decide

end WalletService
